import Mathlib

/-!
Verification development for the typox repository: a CLI (`src/main.rs`) and a
WASM plugin (`plugin/src/lib.rs`) exposing an Oxigraph RDF store.  The pure
logic of both front ends — the term projector, the result formatter, the
store registry operations, the store-reference dispatcher and the glob/bulk
loader — is embedded shallowly below; the opaque graph engine (Oxigraph) and
the I/O collaborators (filesystem, HTTP) are modelled as explicit parameters,
matching the spec's "opaque collaborator" boundary.
-/

namespace Typox

/-- Model of `serde_json::Value`.  `int` is a `Number` built from an `i64`
(`serde_json::Number::from`), `num m e` a `Number` built from a finite `f64`
(`Number::from_f64`); the two are distinct in serde_json just as here.  The
`f64` value is carried exactly as the decimal `m * 10 ^ e` of the parsed
literal (IEEE rounding is elided; no claim depends on rounding, and no claim
compares two different spellings of one value).  `obj` keeps fields in
insertion order (serde_json's map ordering is not observed by any claim). -/
inductive Json where
  | null : Json
  | bool (b : Bool) : Json
  | int (n : Int) : Json
  | num (m : Int) (e : Int) : Json
  | str (s : String) : Json
  | arr (elems : List Json) : Json
  | obj (fields : List (String × Json)) : Json

/-- Numeric value of a list of ASCII digit characters. -/
def natOfDigits (cs : List Char) : Nat :=
  cs.foldl (fun a c => a * 10 + (c.toNat - 48)) 0

/-- Accumulate the value of a digit string, failing on a non-digit or on an
empty string: the digit-run part of Rust's `str::parse::<i64>`. -/
def rustDigitsVal (cs : List Char) : Option Nat :=
  if cs.isEmpty then none
  else cs.foldl (fun acc c =>
    match acc with
    | none => none
    | some n => if c.isDigit then some (n * 10 + (c.toNat - 48)) else none)
    (some 0)

/-- Model of Rust `str::parse::<i64>`: an optional `+`/`-` sign, then one or
more ASCII digits consuming the whole string, with the value required to fit
in a signed 64-bit integer. -/
def rustParseI64 (s : String) : Option Int :=
  let cs := s.toList
  let sr : Int × List Char :=
    match cs with
    | '+' :: r => (1, r)
    | '-' :: r => (-1, r)
    | r => (1, r)
  match rustDigitsVal sr.2 with
  | none => none
  | some n =>
      let v : Int := sr.1 * (n : Int)
      if -(2 ^ 63) ≤ v ∧ v ≤ 2 ^ 63 - 1 then some v else none

/-- A parsed `f64`: either a finite value, carried exactly as the decimal
`m * 10 ^ e`, or a non-finite one (`nan`, `±inf`, or decimal overflow past
`f64::MAX`). -/
inductive F64 where
  | finite (m : Int) (e : Int) : F64
  | nonfinite : F64
deriving DecidableEq, Repr

/-- `f64::MAX` as an exact natural number: `(2^53 - 1) * 2^971`. -/
def f64MaxNum : Nat := (2 ^ 53 - 1) * 2 ^ 971

/-- Whether the decimal `m * 10 ^ e` overflows `f64::MAX` in magnitude (the
rounding detail at the exact boundary is elided; no claim evaluates there). -/
def decOverflows (m e : Int) : Bool :=
  if 0 ≤ e then f64MaxNum < m.natAbs * 10 ^ e.toNat
  else f64MaxNum * 10 ^ (-e).toNat < m.natAbs

/-- The exponent suffix of Rust's float grammar: empty, or `e`/`E`, an
optional sign and one or more digits ending the string. -/
def parseExpPart : List Char → Option Int
  | [] => some 0
  | c :: rest =>
      if c = 'e' ∨ c = 'E' then
        let sr : Int × List Char :=
          match rest with
          | '+' :: r => (1, r)
          | '-' :: r => (-1, r)
          | r => (1, r)
        let ds := sr.2.takeWhile Char.isDigit
        let r3 := sr.2.dropWhile Char.isDigit
        if ds.isEmpty ∨ ¬r3.isEmpty then none
        else some (sr.1 * (natOfDigits ds : Int))
      else none

/-- The `Number` production of Rust's float grammar:
`Digits [. [Digits]] [Exp]` or `. Digits [Exp]`, yielding the unsigned
mantissa and the power of ten scaling it (the written exponent minus the
number of fraction digits). -/
def parseDecimal (cs : List Char) : Option (Nat × Int) :=
  let intPart := cs.takeWhile Char.isDigit
  let rest1 := cs.dropWhile Char.isDigit
  match rest1 with
  | '.' :: rest2 =>
      let fracPart := rest2.takeWhile Char.isDigit
      let rest3 := rest2.dropWhile Char.isDigit
      if intPart.isEmpty ∧ fracPart.isEmpty then none
      else
        match parseExpPart rest3 with
        | none => none
        | some e =>
            let mant : Nat := natOfDigits intPart * 10 ^ fracPart.length + natOfDigits fracPart
            some (mant, e - (fracPart.length : Int))
  | _ =>
      if intPart.isEmpty then none
      else
        match parseExpPart rest1 with
        | none => none
        | some e => some (natOfDigits intPart, e)

/-- Model of Rust `str::parse::<f64>`: an optional sign, then (case
insensitively) `inf`, `infinity`, `nan`, or a decimal number.  A decimal
whose magnitude exceeds `f64::MAX` overflows to infinity. -/
def rustParseF64 (s : String) : Option F64 :=
  let cs := s.toList
  let sr : Int × List Char :=
    match cs with
    | '+' :: r => (1, r)
    | '-' :: r => (-1, r)
    | r => (1, r)
  let lower := sr.2.map Char.toLower
  if lower = "inf".toList ∨ lower = "infinity".toList ∨ lower = "nan".toList then
    some .nonfinite
  else
    match parseDecimal sr.2 with
    | none => none
    | some me =>
        let m : Int := sr.1 * (me.1 : Int)
        if decOverflows m me.2 then some .nonfinite else some (.finite m me.2)

/-- Model of Rust `str::parse::<bool>`: exactly `true` or `false`. -/
def rustParseBool (s : String) : Option Bool :=
  if s = "true" then some true
  else if s = "false" then some false
  else none

/-- Rust `str::starts_with`: byte-prefix test, which on valid UTF-8 is the
character-prefix test. -/
def strStartsWithb (s pre : String) : Bool := pre.toList.isPrefixOf s.toList

/-- Rust byte slicing `&s[n..]` for an `n` ≤ the length that falls on a
character boundary, as every use in this code does (the slice index is
always the byte length of an ASCII namespace match). -/
def strDrop (s : String) (n : Nat) : String := String.mk (s.toList.drop n)

/-- Rust `str::contains(char)`. -/
def strContainsChar (s : String) (c : Char) : Bool := s.toList.contains c

/-! ## XSD datatype IRIs (constants of `src/main.rs`; the plugin's
`oxigraph::model::vocab::xsd` names denote the same IRIs) -/

def XSD_INTEGER : String := "http://www.w3.org/2001/XMLSchema#integer"

def XSD_INT : String := "http://www.w3.org/2001/XMLSchema#int"

def XSD_LONG : String := "http://www.w3.org/2001/XMLSchema#long"

def XSD_SHORT : String := "http://www.w3.org/2001/XMLSchema#short"

def XSD_BYTE : String := "http://www.w3.org/2001/XMLSchema#byte"

def XSD_NON_NEGATIVE_INTEGER : String := "http://www.w3.org/2001/XMLSchema#nonNegativeInteger"

def XSD_POSITIVE_INTEGER : String := "http://www.w3.org/2001/XMLSchema#positiveInteger"

def XSD_UNSIGNED_INT : String := "http://www.w3.org/2001/XMLSchema#unsignedInt"

def XSD_UNSIGNED_LONG : String := "http://www.w3.org/2001/XMLSchema#unsignedLong"

def XSD_UNSIGNED_SHORT : String := "http://www.w3.org/2001/XMLSchema#unsignedShort"

def XSD_UNSIGNED_BYTE : String := "http://www.w3.org/2001/XMLSchema#unsignedByte"

def XSD_DECIMAL : String := "http://www.w3.org/2001/XMLSchema#decimal"

def XSD_DOUBLE : String := "http://www.w3.org/2001/XMLSchema#double"

def XSD_FLOAT : String := "http://www.w3.org/2001/XMLSchema#float"

def XSD_BOOLEAN : String := "http://www.w3.org/2001/XMLSchema#boolean"

def XSD_STRING : String := "http://www.w3.org/2001/XMLSchema#string"

/-- The 11-member integer family matched by `format_term_typed`
(`src/main.rs` lines 529-539) and by `format_http_term_typed`. -/
def isIntegerDatatype (dt : String) : Bool :=
  dt == XSD_INTEGER || dt == XSD_INT || dt == XSD_LONG || dt == XSD_SHORT ||
  dt == XSD_BYTE || dt == XSD_NON_NEGATIVE_INTEGER || dt == XSD_POSITIVE_INTEGER ||
  dt == XSD_UNSIGNED_INT || dt == XSD_UNSIGNED_LONG || dt == XSD_UNSIGNED_SHORT ||
  dt == XSD_UNSIGNED_BYTE

/-- The floating family matched by `format_term_typed` (`src/main.rs` line 544). -/
def isFloatDatatype (dt : String) : Bool :=
  dt == XSD_DECIMAL || dt == XSD_DOUBLE || dt == XSD_FLOAT

/-- An RDF term as both front ends consume it from a query solution.
Oxigraph's `Literal::datatype()` is total: a plain literal reports
`xsd:string`, a language-tagged one `rdf:langString`, so the datatype is a
plain `String` here; neither front end ever reads the language tag itself.
(`main.rs` matches the three variants exhaustively; the plugin's `_` arm for
RDF-star triple terms is unreachable on this model and not claimed.) -/
inductive Term where
  | namedNode (iri : String) : Term
  | blankNode (label : String) : Term
  | literal (value : String) (datatype : String) : Term

/-- The trailing numeric heuristic of `format_term_typed`
(`src/main.rs` lines 554-565), reached when no datatype branch returned:
bare `i64` parse, then bare `f64` parse, then the string itself.  A parsed
but non-finite `f64` (`Number::from_f64` returns `None`) also falls back to
the string. -/
def bare_numeric_fallback (value_str : String) : Json :=
  match rustParseI64 value_str with
  | some n => .int n
  | none =>
      match rustParseF64 value_str with
      | some (.finite m e) => .num m e
      | some .nonfinite => .str value_str
      | none => .str value_str

/-- `format_term_typed` of `src/main.rs` (lines 508-568): the CLI's term
projector.  A prefix-table hit compacts a NamedNode IRI (the table models one
iteration order of the Rust `HashMap`; `&uri[namespace.len()..]` is byte
slicing, which agrees with `String.drop` on the ASCII IRIs of every claim);
a literal takes the datatype-directed numeric branch and otherwise falls
through to `bare_numeric_fallback`. -/
def format_term_typed (term : Term) (prefixes : List (String × String)) : Json :=
  match term with
  | .namedNode uri =>
      match prefixes.find? (fun p => strStartsWithb uri p.2) with
      | some p => .str (p.1 ++ ":" ++ strDrop uri p.2.length)
      | none => .str uri
  | .blankNode label => .str ("_:" ++ label)
  | .literal value_str datatype_str =>
      if isIntegerDatatype datatype_str then
        match rustParseI64 value_str with
        | some n => .int n
        | none => bare_numeric_fallback value_str
      else if isFloatDatatype datatype_str then
        match rustParseF64 value_str with
        | some (.finite m e) => .num m e
        | _ => bare_numeric_fallback value_str
      else bare_numeric_fallback value_str

namespace Plugin

/-- The literal/term projection expression inlined in the plugin's `query`
(`plugin/src/lib.rs` lines 208-240).  A NamedNode is emitted as its raw IRI
(no prefix table exists in the plugin); only `xsd:integer`/`int`/`long` are
integer-coerced; `json!(num)` on a non-finite `f64` produces JSON `null`;
every other datatype yields the literal's string value with no numeric
fallback. -/
def format_term (term : Term) : Json :=
  match term with
  | .namedNode n => .str n
  | .blankNode b => .str ("_:" ++ b)
  | .literal v dt =>
      if dt == XSD_INTEGER || dt == XSD_INT || dt == XSD_LONG then
        match rustParseI64 v with
        | some n => .int n
        | none => .str v
      else if dt == XSD_DECIMAL || dt == XSD_DOUBLE || dt == XSD_FLOAT then
        match rustParseF64 v with
        | some (.finite m e) => .num m e
        | some .nonfinite => .null
        | none => .str v
      else if dt == XSD_BOOLEAN then
        match rustParseBool v with
        | some b => .bool b
        | none => .str v
      else .str v

end Plugin

/-! ## The opaque graph engine and query results -/

/-- An opaque handle to one Oxigraph store instance; the engine behind it is
out of scope (spec section 1) and is supplied as an `Engine` of oracles. -/
structure Store where
  id : Nat
deriving DecidableEq, Repr

/-- A query solution as both front ends iterate it: the variable/term pairs
of `solution.iter()` in order. -/
abbrev Solution := List (String × Term)

/-- `oxigraph::sparql::QueryResults`: the three result shapes.  Each row of a
`Solutions` stream may itself fail (`solution?` in `main.rs`,
`solution.map_err(..)` in the plugin), hence the `Except` per row.  The
triples payload of a `Graph` is never consumed by a modelled operation and is
elided. -/
inductive QueryResults where
  | solutions (rows : List (Except String Solution)) : QueryResults
  | boolean (b : Bool) : QueryResults
  | graph : QueryResults

/-- The engine operations the embedded code calls on a store handle, as
oracles (spec section 1: `query`, `len`, `clear`, `new`).  Theorems quantify
over every engine behaviour. -/
structure Engine where
  exec : Store → String → Except String QueryResults
  lenOf : Store → Except String Nat
  clearOf : Store → Except String Unit
  defaultStore : Store

/-- `format_results` of `src/main.rs` (lines 476-506): the CLI's row-set
formatter.  A non-`Solutions` shape is refused; an empty row set is the
`No records found` error; otherwise the rows are projected through
`format_term_typed`.  (The `serde_json::Map` key ordering inside a row is not
observed by any claim and is kept as iteration order here.) -/
def format_results (results : QueryResults) (prefixes : List (String × String)) :
    Except String Json :=
  match results with
  | .solutions sols => do
      let rows ← sols.mapM (fun sres => do
        let sol ← sres
        pure (Json.obj (sol.map (fun vt => (vt.1, format_term_typed vt.2 prefixes)))))
      if rows.isEmpty then
        Except.error "No records found for the given query"
      else
        Except.ok (.arr rows)
  | _ => .error "Only SELECT queries are supported"

namespace Plugin

/-- The plugin's global registry: `None` models the state before
`ensure_stores` has ever run, `some m` the initialized `STORES` map.  The
`BTreeMap` is modelled as its association list (the only operations the
claims touch are `get`/`get_mut` lookups and the initial insert). -/
abbrev RegistryState := Option (List (String × Store))

/-- `ensure_stores` of `plugin/src/lib.rs` (lines 67-79): lazy idempotent
initialization.  The `INITIALIZED` atomic double-check collapses, under the
host's serialized-call contract, to the `is_none` check modelled here; the
first run inserts the default store literally named `memory`. -/
def ensure_stores (eng : Engine) (st : RegistryState) : List (String × Store) :=
  match st with
  | none => [("memory", eng.defaultStore)]
  | some m => m

/-- `query` of `plugin/src/lib.rs` (lines 176-261), from `with_stores_mut`
inward: look the store up (read-only — a missing name is the
`Store '<name>' not found` error), execute, then branch on the result shape.
A `Solutions` stream is projected row by row through `Plugin.format_term`
into a JSON array; a `Boolean` is answered as the object
`{"boolean": <b>}`; a `Graph` is refused naming `query_construct`.  The
final `serde_json::to_string` serialization is elided: the payload is kept
as the `Json` value it serializes.  Returns the post-call registry next to
the payload. -/
def query (eng : Engine) (st : RegistryState) (store_name sparql : String) :
    List (String × Store) × Except String Json :=
  let stores := ensure_stores eng st
  match stores.lookup store_name with
  | none => (stores, .error ("Store '" ++ store_name ++ "' not found"))
  | some store =>
      match eng.exec store sparql with
      | .error e => (stores, .error ("SPARQL query execution failed: " ++ e))
      | .ok (.solutions sols) =>
          (stores,
            (sols.mapM (fun sres =>
              (match sres with
              | .error e => .error ("Error reading solution: " ++ e)
              | .ok sol =>
                  .ok (Json.obj (sol.map (fun vt => (vt.1, format_term vt.2)))) :
                Except String Json))).map
              Json.arr)
      | .ok (.boolean b) => (stores, .ok (.obj [("boolean", .bool b)]))
      | .ok .graph => (stores, .error "CONSTRUCT queries should use query_construct function")

/-- `clear_store` of `plugin/src/lib.rs` (lines 359-378), from
`with_stores_mut` inward: a read-only lookup (`get_mut`) that never inserts;
on a hit the engine's `clear` empties the store in place, keeping the name
registered. -/
def clear_store (eng : Engine) (st : RegistryState) (store_name : String) :
    List (String × Store) × Except String Unit :=
  let stores := ensure_stores eng st
  match stores.lookup store_name with
  | none => (stores, .error ("Store '" ++ store_name ++ "' not found"))
  | some store =>
      match eng.clearOf store with
      | .error e => (stores, .error ("Failed to clear store: " ++ e))
      | .ok _ => (stores, .ok ())

/-- `get_store_size` of `plugin/src/lib.rs` (lines 395-414), from
`with_stores_mut` inward: lookup, then the store's quad count rendered as
decimal text. -/
def get_store_size (eng : Engine) (st : RegistryState) (store_name : String) :
    List (String × Store) × Except String String :=
  let stores := ensure_stores eng st
  match stores.lookup store_name with
  | none => (stores, .error ("Store '" ++ store_name ++ "' not found"))
  | some store =>
      match eng.lenOf store with
      | .error e => (stores, .error ("Failed to get store size: " ++ e))
      | .ok n => (stores, .ok (toString n))

end Plugin

/-! ## The CLI's store-reference dispatcher and remote path -/

/-- `DataSource` of `src/main.rs` (lines 52-55). -/
inductive DataSource where
  | localStore (s : Store) : DataSource
  | httpEndpoint (url : String) : DataSource

/-- `connect_to_store` of `src/main.rs` (lines 340-352).  An `http://` or
`https://` scheme short-circuits to a remote endpoint, consulting neither
the filesystem nor `Store::open` (both are oracle parameters here, and the
remote branch uses neither); any other reference must exist on disk and is
opened as a persistent local store (`with_context` wraps an open failure). -/
def connect_to_store (pathExists : String → Bool)
    (openStore : String → Except String Store) (store_param : String) :
    Except String DataSource :=
  if strStartsWithb store_param "http://" || strStartsWithb store_param "https://" then
    .ok (.httpEndpoint store_param)
  else if pathExists store_param then
    match openStore store_param with
    | .error e => .error ("Failed to open store at: " ++ store_param ++ ": " ++ e)
    | .ok s => .ok (.localStore s)
  else
    .error ("Store path does not exist: " ++ store_param)

/-- Field access on a JSON object (`serde_json::Value::get`); `none` on a
non-object or a missing key. -/
def Json.getField (j : Json) (key : String) : Option Json :=
  match j with
  | .obj fields => fields.lookup key
  | _ => none

/-- `format_http_term_typed` of `src/main.rs` (lines 415-474): projection of
one SPARQL-JSON binding value.  A `uri` is prefix-compacted like the local
path; a `literal` first tries the datatype-directed branches and, whenever
none of them returned, always falls through to the bare numeric heuristic —
the same tail as `bare_numeric_fallback`. -/
def format_http_term_typed (value_str : String) (value_map : List (String × Json))
    (prefixes : List (String × String)) : Json :=
  match value_map.lookup "type" with
  | some (.str "uri") =>
      match prefixes.find? (fun p => strStartsWithb value_str p.2) with
      | some p => .str (p.1 ++ ":" ++ strDrop value_str p.2.length)
      | none => .str value_str
  | some (.str "bnode") => .str ("_:" ++ value_str)
  | some (.str "literal") =>
      let coerced : Option Json :=
        match value_map.lookup "datatype" with
        | some (.str dt) =>
            if isIntegerDatatype dt then
              match rustParseI64 value_str with
              | some n => some (.int n)
              | none => none
            else if isFloatDatatype dt then
              match rustParseF64 value_str with
              | some (.finite m e) => some (.num m e)
              | _ => none
            else none
        | _ => none
      match coerced with
      | some j => j
      | none => bare_numeric_fallback value_str
  | _ => .str value_str

/-- `convert_sparql_json_to_typox_format` of `src/main.rs` (lines 382-413):
the `results.bindings` array of a SPARQL JSON response mapped to rows.  A
non-object binding is skipped; a binding entry without an object value or a
string `value` field is skipped; an empty row array is the
`No records found` error. -/
def convert_sparql_json_to_typox_format (json : Json)
    (prefixes : List (String × String)) : Except String Json :=
  match (Json.getField json "results").bind (fun r => Json.getField r "bindings") with
  | some (.arr bindings) =>
      let rows := bindings.filterMap (fun binding =>
        match binding with
        | .obj fields =>
            some (Json.obj (fields.filterMap (fun kv =>
              match kv.2 with
              | .obj vmap =>
                  match vmap.lookup "value" with
                  | some (.str value_str) =>
                      some (kv.1, format_http_term_typed value_str vmap prefixes)
                  | _ => none
              | _ => none)))
        | _ => none)
      if rows.isEmpty then .error "No records found for the given query"
      else .ok (.arr rows)
  | _ => .error "Invalid SPARQL JSON response format"

/-- One HTTP response as the remote path consumes it: the status code, and
the outcome of `response.json()`. -/
structure HttpResponse where
  status : Nat
  body : Except String Json

/-- `execute_http_query` of `src/main.rs` (lines 354-380).  The send itself
is an oracle; a non-success status (`reqwest::StatusCode::is_success`, i.e.
outside 200-299) is refused with the status code and endpoint in the message
(the canonical reason phrase Rust's `Display` appends to the code is not
modelled); then the JSON body feeds `convert_sparql_json_to_typox_format`. -/
def execute_http_query (send : String → String → Except String HttpResponse)
    (endpoint_url query_text : String) (prefixes : List (String × String)) :
    Except String Json :=
  match send endpoint_url query_text with
  | .error e => .error ("Failed to send HTTP request to: " ++ endpoint_url ++ ": " ++ e)
  | .ok resp =>
      if 200 ≤ resp.status ∧ resp.status ≤ 299 then
        match resp.body with
        | .error _ => .error "Failed to parse JSON response from HTTP endpoint"
        | .ok json => convert_sparql_json_to_typox_format json prefixes
      else
        .error ("HTTP request failed with status: " ++ toString resp.status ++
          " for endpoint: " ++ endpoint_url)

/-! ## Paths and the glob expansion of the bulk loader

A filesystem path is modelled as its component list, which is what Rust's
`PathBuf` comparison (`Ord`: lexicographic over the `Components` iterator,
each component compared byte-wise — byte order and codepoint order coincide
on UTF-8) and `Path::extension` read. -/

abbrev Path := List String

/-- Strict codepoint-lexicographic comparison of character lists: the order
Rust uses on `str`/`OsStr` (byte-wise on UTF-8). -/
def charListLtb : List Char → List Char → Bool
  | _, [] => false
  | [], _ :: _ => true
  | a :: as, b :: bs => if a < b then true else if b < a then false else charListLtb as bs

/-- Strict string comparison, Rust `str` order. -/
def strLtb (a b : String) : Bool := charListLtb a.toList b.toList

/-- Non-strict lexicographic order on component lists: Rust's `PathBuf`
`Ord`, as `sort()` uses it. -/
def pathLeb : Path → Path → Bool
  | [], _ => true
  | _ :: _, [] => false
  | a :: as, b :: bs => if strLtb a b then true else if strLtb b a then false else pathLeb as bs

/-- `pathLeb` as a decidable relation, for `List.insertionSort` and
`List.Sorted`. -/
def PathLe (p q : Path) : Prop := pathLeb p q = true

instance : DecidableRel PathLe := fun p q =>
  inferInstanceAs (Decidable (pathLeb p q = true))

theorem charListLtb_trans : ∀ {a b c : List Char},
    charListLtb a b = true → charListLtb b c = true → charListLtb a c = true
  | _, [], _ => by intro h _; simp [charListLtb] at h
  | _, _ :: _, [] => by intro _ h; simp [charListLtb] at h
  | [], _ :: _, _ :: _ => by intro _ _; simp [charListLtb]
  | a :: as, b :: bs, c :: cs => by
      intro h1 h2
      simp only [charListLtb] at h1 h2 ⊢
      by_cases hab : a < b
      · by_cases hbc : b < c
        · simp [lt_trans hab hbc]
        · by_cases hcb : c < b
          · simp [hbc, hcb] at h2
          · have hbc2 : b = c := le_antisymm (not_lt.mp hcb) (not_lt.mp hbc)
            subst hbc2
            simp [hab]
      · by_cases hba : b < a
        · simp [hab, hba] at h1
        · have hab2 : a = b := le_antisymm (not_lt.mp hba) (not_lt.mp hab)
          subst hab2
          by_cases hac : a < c
          · simp [hac]
          · by_cases hca : c < a
            · simp [hac, hca] at h2
            · simp only [lt_irrefl, if_false] at h1
              simp only [hac, hca, if_false] at h2 ⊢
              exact charListLtb_trans h1 h2

theorem charListLtb_not_not_eq : ∀ {a b : List Char},
    charListLtb a b = false → charListLtb b a = false → a = b
  | [], [] => by intro _ _; rfl
  | [], _ :: _ => by intro h _; simp [charListLtb] at h
  | _ :: _, [] => by intro _ h; simp [charListLtb] at h
  | a :: as, b :: bs => by
      intro h1 h2
      simp only [charListLtb] at h1 h2
      by_cases hab : a < b
      · simp [hab] at h1
      · by_cases hba : b < a
        · simp [hab, hba] at h1 h2
        · have hab2 : a = b := le_antisymm (not_lt.mp hba) (not_lt.mp hab)
          simp only [hab, hba, if_false] at h1 h2
          have := charListLtb_not_not_eq h1 h2
          simp [hab2, this]

theorem strLtb_trans {a b c : String} (h1 : strLtb a b = true)
    (h2 : strLtb b c = true) : strLtb a c = true :=
  charListLtb_trans h1 h2

theorem charListLtb_irrefl : ∀ l : List Char, charListLtb l l = false
  | [] => rfl
  | a :: as => by simp [charListLtb, charListLtb_irrefl as]

theorem strLtb_not_not_eq {a b : String} (h1 : strLtb a b = false)
    (h2 : strLtb b a = false) : a = b := by
  have hl : a.toList = b.toList := charListLtb_not_not_eq h1 h2
  cases a; cases b
  exact congrArg String.mk (by simpa using hl)

theorem strLtb_irrefl (a : String) : strLtb a a = false :=
  charListLtb_irrefl a.toList

theorem pathLeb_total : ∀ p q : Path, pathLeb p q = true ∨ pathLeb q p = true
  | [], _ => .inl rfl
  | _ :: _, [] => .inr rfl
  | a :: as, b :: bs => by
      rcases hab : strLtb a b with _ | _
      · rcases hba : strLtb b a with _ | _
        · rcases pathLeb_total as bs with h | h
          · exact .inl (by simp [pathLeb, hab, hba, h])
          · exact .inr (by simp [pathLeb, hab, hba, h])
        · exact .inr (by simp [pathLeb, hba])
      · exact .inl (by simp [pathLeb, hab])

theorem pathLeb_trans : ∀ {p q r : Path}, pathLeb p q = true → pathLeb q r = true →
    pathLeb p r = true
  | [], _, _ => by intro _ _; rfl
  | _ :: _, [], _ => by intro h _; simp [pathLeb] at h
  | _ :: _, _ :: _, [] => by intro _ h; simp [pathLeb] at h
  | a :: as, b :: bs, c :: cs => by
      intro h1 h2
      rcases hab : strLtb a b with _ | _
      · rcases hba : strLtb b a with _ | _
        · -- neither a < b nor b < a: a = b, recurse along the tails
          have hab2 : a = b := strLtb_not_not_eq hab hba
          subst hab2
          simp only [pathLeb, hab, Bool.false_eq_true, if_false] at h1
          rcases hac : strLtb a c with _ | _
          · rcases hca : strLtb c a with _ | _
            · simp only [pathLeb, hac, hca, Bool.false_eq_true, if_false] at h2 ⊢
              exact pathLeb_trans h1 h2
            · simp [pathLeb, hac, hca] at h2
          · simp [pathLeb, hac]
        · simp [pathLeb, hab, hba] at h1
      · rcases hbc : strLtb b c with _ | _
        · rcases hcb : strLtb c b with _ | _
          · have hbc2 : b = c := strLtb_not_not_eq hbc hcb
            subst hbc2
            simp [pathLeb, hab]
          · simp [pathLeb, hbc, hcb] at h2
        · simp [pathLeb, strLtb_trans hab hbc]

instance : IsTotal Path PathLe := ⟨pathLeb_total⟩

instance : IsTrans Path PathLe := ⟨fun _ _ _ => pathLeb_trans⟩

/-- `PathBuf::from(<string>)`: the component list of a path string. -/
def splitSlash : List Char → List (List Char)
  | [] => [[]]
  | c :: rest =>
      let r := splitSlash rest
      if c = '/' then [] :: r
      else
        match r with
        | [] => [[c]]
        | g :: gs => (c :: g) :: gs

def pathOfString (s : String) : Path := (splitSlash s.toList).map String.mk

/-- Rust `Path::extension()`: the part of the final component after its last
dot, `none` when there is no dot or the only dot is the leading one of a
hidden file. -/
def pathExtension (p : Path) : Option String :=
  match p.getLast? with
  | none => none
  | some name =>
      let cs := name.toList
      match cs.reverse.findIdx? (· = '.') with
      | none => none
      | some k =>
          let i := cs.length - 1 - k
          if i = 0 then none
          else some (String.mk (cs.drop (i + 1)))

/-- The filesystem collaborator of the glob expansion: existence of a literal
path, the regular-file test, and the glob crate's expansion (outer `none` is
an invalid pattern; an inner `Except.error` is a per-entry read error, which
the source only warns about and skips). -/
structure FS where
  pathExists : String → Bool
  isFile : Path → Bool
  glob : String → Option (List (Except String Path))

/-- The filter body of `expand_glob_pattern`'s glob branch (`src/main.rs`
lines 296-310): per-entry errors are skipped, and a path is kept only when
it is a regular file whose extension is `ttl` or `turtle`. -/
def globKeep (fs : FS) (entries : List (Except String Path)) : List Path :=
  entries.filterMap (fun ent =>
    match ent with
    | .error _ => none
    | .ok p =>
        if fs.isFile p then
          match pathExtension p with
          | some ext => if ext == "ttl" || ext == "turtle" then some p else none
          | none => none
        else none)

/-- `expand_glob_pattern` of `src/main.rs` (lines 279-318).  A pattern
without `*`, `?` or `[` is a literal path: it must exist.  Otherwise the
glob expansion is filtered through `globKeep`, an empty result is the
`No turtle files found` error, and the survivors are sorted
(`paths.sort()`: Rust's stable sort under `PathBuf` `Ord`, modelled by the
stable `insertionSort` under `PathLe` — same comparisons, same output). -/
def expand_glob_pattern (fs : FS) (pattern : String) : Except String (List Path) :=
  if !(strContainsChar pattern '*' || strContainsChar pattern '?' || strContainsChar pattern '[') then
    if fs.pathExists pattern then .ok [pathOfString pattern]
    else .error ("File does not exist: " ++ pattern)
  else
    match fs.glob pattern with
    | none => .error ("Invalid glob pattern: " ++ pattern)
    | some entries =>
        let paths := globKeep fs entries
        if paths.isEmpty then
          .error ("No turtle files found matching pattern: " ++ pattern)
        else .ok (List.insertionSort PathLe paths)

/-- `Path::display()` of a component-list path, for error messages. -/
def pathDisplay (p : Path) : String := String.intercalate "/" p

/-- `Path::parent()` of a path string: drop the final component; `none` for
an empty path (root and prefix subtleties of the real `Path` are not
exercised by any claim). -/
def parentPath (s : String) : Option String :=
  match (pathOfString s).dropLast with
  | [] => if pathOfString s = [] then none else some ""
  | ps => some (pathDisplay ps)

/-- The collaborators of `load_turtle_files`: the filesystem pieces of `FS`
plus directory removal/creation, whole-file reads (`β` the file bytes), and
the engine's store at the load path (`σ` its state, threaded through
`load_from_reader` — which, as in the source, takes only the format and the
bytes: no base IRI travels through this call). -/
structure LoadWorld (β σ : Type) extends FS where
  removeDirAll : String → Except String Unit
  createDirAll : String → Except String Unit
  readFile : Path → Except String β
  openStore : String → Except String σ
  loadFromReader : σ → β → Except String σ
  storeLen : σ → Except String Nat

/-- `load_turtle_files` of `src/main.rs` (lines 205-277).  Removal under
`--create`, parent-directory creation, store open, then per pattern the glob
expansion and per file: read, count, load (`store.load_from_reader(
RdfFormat::Turtle, reader)` — the function binds its `base_iri` argument to
the unused `_base_iri_str` and passes nothing of it onward), recount,
accumulate the delta.  Returns the final store state and the reported total.
(Filesystem mutations are visible only through the oracle results; the
re-query of `store_path.exists()` after a removal reads the same oracle,
which only picks between the two open-failure context messages.) -/
def load_turtle_files {β σ : Type} (w : LoadWorld β σ) (store_path : String)
    (files : List String) (create_new : Bool) (base_iri : Option String) :
    Except String (σ × Nat) := do
  if create_new && w.pathExists store_path then
    match w.removeDirAll store_path with
    | .error _ => throw ("Failed to remove existing store: " ++ store_path)
    | .ok _ => pure ()
  match parentPath store_path with
  | some parent =>
      match w.createDirAll parent with
      | .error _ => throw ("Failed to create parent directory: " ++ parent)
      | .ok _ => pure ()
  | none => pure ()
  let store ←
    if create_new || !w.pathExists store_path then
      match w.openStore store_path with
      | .error _ => throw ("Failed to create store at: " ++ store_path)
      | .ok s => pure s
    else
      match w.openStore store_path with
      | .error _ => throw ("Failed to open store at: " ++ store_path)
      | .ok s => pure s
  let _base_iri_str := base_iri
  let mut total : Nat := 0
  let mut st := store
  for file_pattern in files do
    let expanded_files ← expand_glob_pattern w.toFS file_pattern
    for file_path in expanded_files do
      let file_content ←
        match w.readFile file_path with
        | .error _ => throw ("Failed to read file: " ++ pathDisplay file_path)
        | .ok c => pure c
      let triples_before ← w.storeLen st
      st ←
        match w.loadFromReader st file_content with
        | .error _ => throw ("Failed to load turtle file: " ++ pathDisplay file_path)
        | .ok s2 => pure s2
      let triples_after ← w.storeLen st
      total := total + (triples_after - triples_before)
  let _ ← w.storeLen st
  pure (st, total)

/-! ## Concrete collaborators used by witnesses and counterexamples -/

/-- An engine whose every query answers the fixed result `r`. -/
def constEngine (r : QueryResults) : Engine :=
  { exec := fun _ _ => .ok r
    lenOf := fun _ => .ok 0
    clearOf := fun _ => .ok ()
    defaultStore := ⟨0⟩ }

/-- A filesystem whose glob expansion lists `b.ttl` before `a.ttl` (both
regular files), exercising the sort of `expand_glob_pattern`. -/
def sampleGlobFS : FS :=
  { pathExists := fun _ => false
    isFile := fun _ => true
    glob := fun _ => some [.ok ["b.ttl"], .ok ["a.ttl"]] }

/-! ## The claims -/

/-- C5: the spec says a supplied base IRI "is passed through to the
underlying store load call"; the code binds it to the unused
`_base_iri_str` and calls `load_from_reader(RdfFormat::Turtle, reader)`
with no base at all, contradicting the CLI's own `--base-iri` help text
("Base IRI for resolving relative IRIs in Turtle files").  Formally: the
whole bulk load — every oracle call and its result — is independent of the
`base_iri` argument, for every world, path, file list and create flag. -/
theorem base_iri_not_passed_through {β σ : Type} (w : LoadWorld β σ)
    (store_path : String) (files : List String) (create_new : Bool)
    (b1 b2 : Option String) :
    load_turtle_files w store_path files create_new b1 =
      load_turtle_files w store_path files create_new b2 := rfl

/-- C6: a row-set query succeeding with zero solutions is the
`No records found for the given query` error on the CLI path
(`format_results`), while the plugin's `query` returns the empty JSON array
as a valid result — for every engine, registry state and prefix table. -/
theorem empty_rowset_divergence (prefixes : List (String × String)) (eng : Engine)
    (st : Plugin.RegistryState) (name sparql : String) (s : Store)
    (hlook : (Plugin.ensure_stores eng st).lookup name = some s)
    (hexec : eng.exec s sparql = .ok (.solutions [])) :
    format_results (.solutions []) prefixes =
      .error "No records found for the given query" ∧
    (Plugin.query eng st name sparql).2 = .ok (.arr []) := by
  constructor
  · rfl
  · unfold Plugin.query
    simp [hlook, hexec]
    rfl

/-- Witness for C6 at a concrete engine that answers every query with an
empty row set, against the default `memory` store. -/
theorem empty_rowset_divergence_witness :
    format_results (.solutions []) [] =
      .error "No records found for the given query" ∧
    (Plugin.query (constEngine (.solutions [])) none "memory" "SELECT").2 =
      .ok (.arr []) :=
  empty_rowset_divergence [] (constEngine (.solutions [])) none "memory" "SELECT"
    ⟨0⟩ rfl rfl

/-- C7: on a store name absent from the (initialized) registry, the three
read-only plugin operations `query`, `clear_store` and `get_store_size`
fail with the `Store '<name>' not found` error, leave the registry's
name-to-handle mapping exactly as `ensure_stores` left it, and in
particular never create the missing name — for every engine and every
registry state.  (From the uninitialized state, `ensure_stores` first
installs only the default `memory` store, the documented first-use side
effect; the looked-up name is still never created.) -/
theorem missing_store_readonly_ops (eng : Engine) (st : Plugin.RegistryState)
    (name sparql : String)
    (h : (Plugin.ensure_stores eng st).lookup name = none) :
    (Plugin.query eng st name sparql).1 = Plugin.ensure_stores eng st ∧
    (Plugin.query eng st name sparql).2 =
      .error ("Store '" ++ name ++ "' not found") ∧
    (Plugin.clear_store eng st name).1 = Plugin.ensure_stores eng st ∧
    (Plugin.clear_store eng st name).2 =
      .error ("Store '" ++ name ++ "' not found") ∧
    (Plugin.get_store_size eng st name).1 = Plugin.ensure_stores eng st ∧
    (Plugin.get_store_size eng st name).2 =
      .error ("Store '" ++ name ++ "' not found") ∧
    ((Plugin.query eng st name sparql).1).lookup name = none := by
  unfold Plugin.query Plugin.clear_store Plugin.get_store_size
  simp [h]

/-- Witness for C7: the name `other` against a registry holding only the
default `memory` store. -/
theorem missing_store_readonly_ops_witness :
    (Plugin.query (constEngine .graph) (some [("memory", ⟨0⟩)]) "other" "SELECT").1 =
      [("memory", ⟨0⟩)] ∧
    (Plugin.query (constEngine .graph) (some [("memory", ⟨0⟩)]) "other" "SELECT").2 =
      .error ("Store '" ++ "other" ++ "' not found") ∧
    (Plugin.clear_store (constEngine .graph) (some [("memory", ⟨0⟩)]) "other").1 =
      [("memory", ⟨0⟩)] ∧
    (Plugin.clear_store (constEngine .graph) (some [("memory", ⟨0⟩)]) "other").2 =
      .error ("Store '" ++ "other" ++ "' not found") ∧
    (Plugin.get_store_size (constEngine .graph) (some [("memory", ⟨0⟩)]) "other").1 =
      [("memory", ⟨0⟩)] ∧
    (Plugin.get_store_size (constEngine .graph) (some [("memory", ⟨0⟩)]) "other").2 =
      .error ("Store '" ++ "other" ++ "' not found") ∧
    ((Plugin.query (constEngine .graph) (some [("memory", ⟨0⟩)]) "other" "SELECT").1).lookup
      "other" = none :=
  missing_store_readonly_ops (constEngine .graph) (some [("memory", ⟨0⟩)])
    "other" "SELECT" (by rfl)

/-- C10 (implicit): in the plugin's row-set projection a literal typed
`xsd:boolean` whose lexical value parses as a Rust `bool` (exactly `true`
or `false`) is emitted as a JSON boolean, and on parse failure as the
string value — the spec's projection rules never mention this coercion. -/
theorem plugin_boolean_literal (v : String) (b : Bool) :
    (rustParseBool v = some b →
        Plugin.format_term (.literal v XSD_BOOLEAN) = .bool b) ∧
    (rustParseBool v = none →
        Plugin.format_term (.literal v XSD_BOOLEAN) = .str v) ∧
    Plugin.format_term (.literal "true" XSD_BOOLEAN) = .bool true ∧
    Plugin.format_term (.literal "1" XSD_BOOLEAN) = .str "1" := by
  refine ⟨?_, ?_, by rfl, by rfl⟩ <;> intro h <;>
    simp [Plugin.format_term, h, XSD_BOOLEAN, XSD_INTEGER, XSD_INT, XSD_LONG,
      XSD_DECIMAL, XSD_DOUBLE, XSD_FLOAT]

/-- C1 counterexample: an ASK-form (boolean-shaped) query issued through the
plugin's row-set entry point `query` does NOT fail with a shape error — it
succeeds, coercing the boolean into the JSON object payload. -/
theorem ask_through_rowset_counterexample :
    (Plugin.query (constEngine (.boolean true)) none "memory" "ASK").2 =
      .ok (.obj [("boolean", .bool true)]) := rfl

/-- C1 as amended: the CLI row-set path does refuse a boolean-shaped result
(`Only SELECT queries are supported`, an error naming the supported form
but not a dedicated entry point), while the plugin's `query` silently
answers `{"boolean": b}` as a successful payload; only a graph-shaped
result makes `query` fail naming `query_construct`. -/
theorem ask_through_rowset_amended (b : Bool) (prefixes : List (String × String))
    (eng : Engine) (st : Plugin.RegistryState) (name sparql : String) (s : Store)
    (hlook : (Plugin.ensure_stores eng st).lookup name = some s)
    (hexec : eng.exec s sparql = .ok (.boolean b)) :
    format_results (.boolean b) prefixes =
      .error "Only SELECT queries are supported" ∧
    (Plugin.query eng st name sparql).2 = .ok (.obj [("boolean", .bool b)]) := by
  constructor
  · rfl
  · unfold Plugin.query
    simp [hlook, hexec]

/-- Witness for C1's amended statement at a concrete boolean-answering
engine against the default `memory` store. -/
theorem ask_through_rowset_witness :
    format_results (.boolean false) [] =
      .error "Only SELECT queries are supported" ∧
    (Plugin.query (constEngine (.boolean false)) none "memory" "ASK").2 =
      .ok (.obj [("boolean", .bool false)]) :=
  ask_through_rowset_amended false [] (constEngine (.boolean false)) none
    "memory" "ASK" ⟨0⟩ rfl rfl

set_option maxRecDepth 8000 in
/-- C2 counterexample: the literal `"1.5"^^xsd:integer` has an integer
datatype and a lexical value that does not parse as `i64`, yet the CLI does
NOT return the original string — the trailing heuristic re-parses it as a
float and emits the JSON number 1.5. -/
theorem integer_literal_fallthrough_counterexample :
    format_term_typed (.literal "1.5" XSD_INTEGER) [] = .num 15 (-1) ∧
    format_term_typed (.literal "1.5" XSD_INTEGER) [] ≠ .str "1.5" := by
  have he : format_term_typed (.literal "1.5" XSD_INTEGER) [] = .num 15 (-1) := by
    rfl
  exact ⟨he, by rw [he]; exact fun h => Json.noConfusion h⟩

/-- C2 as amended.  CLI: an integer-family literal parsing as `i64` is that
number; on parse failure the projection falls through to the bare numeric
heuristic and yields the original string only when neither bare parse
succeeds.  Plugin: only `xsd:integer`/`int`/`long` are integer-coerced (the
other eight family members always project to the string value), and a
recognized integer datatype whose value does not parse yields the original
string unchanged. -/
theorem numeric_literal_projection_amended (v dt : String)
    (prefixes : List (String × String)) (n : Int) :
    (isIntegerDatatype dt = true → rustParseI64 v = some n →
        format_term_typed (.literal v dt) prefixes = .int n) ∧
    (isIntegerDatatype dt = true → rustParseI64 v = none →
        format_term_typed (.literal v dt) prefixes = bare_numeric_fallback v) ∧
    ((isIntegerDatatype dt = true ∨ isFloatDatatype dt = true) →
        rustParseI64 v = none → rustParseF64 v = none →
        format_term_typed (.literal v dt) prefixes = .str v) ∧
    ((dt = XSD_INTEGER ∨ dt = XSD_INT ∨ dt = XSD_LONG) → rustParseI64 v = some n →
        Plugin.format_term (.literal v dt) = .int n) ∧
    ((dt = XSD_INTEGER ∨ dt = XSD_INT ∨ dt = XSD_LONG) → rustParseI64 v = none →
        Plugin.format_term (.literal v dt) = .str v) ∧
    ((dt = XSD_SHORT ∨ dt = XSD_BYTE ∨ dt = XSD_NON_NEGATIVE_INTEGER ∨
        dt = XSD_POSITIVE_INTEGER ∨ dt = XSD_UNSIGNED_INT ∨ dt = XSD_UNSIGNED_LONG ∨
        dt = XSD_UNSIGNED_SHORT ∨ dt = XSD_UNSIGNED_BYTE) →
        Plugin.format_term (.literal v dt) = .str v) ∧
    format_term_typed (.literal "41" XSD_SHORT) [] = .int 41 ∧
    Plugin.format_term (.literal "41" XSD_SHORT) = .str "41" ∧
    Plugin.format_term (.literal "abc" XSD_INTEGER) = .str "abc" := by
  refine ⟨?_, ?_, ?_, ?_, ?_, ?_, by rfl, by rfl, by rfl⟩
  · intro hdt hp
    simp [format_term_typed, hdt, hp]
  · intro hdt hp
    simp [format_term_typed, hdt, hp]
  · intro hdt hpi hpf
    rcases hdt with hdt | hdt
    · simp [format_term_typed, hdt, hpi, bare_numeric_fallback, hpf]
    · by_cases hint : isIntegerDatatype dt = true
      · simp [format_term_typed, hint, hpi, bare_numeric_fallback, hpf]
      · simp [format_term_typed, hint, hdt, hpi, bare_numeric_fallback, hpf]
  · rintro (h | h | h) hp <;> subst h <;>
      simp [Plugin.format_term, hp, XSD_INTEGER, XSD_INT, XSD_LONG]
  · rintro (h | h | h) hp <;> subst h <;>
      simp [Plugin.format_term, hp, XSD_INTEGER, XSD_INT, XSD_LONG]
  · rintro (h | h | h | h | h | h | h | h) <;> subst h <;>
      simp [Plugin.format_term, XSD_INTEGER, XSD_INT, XSD_LONG, XSD_SHORT,
        XSD_BYTE, XSD_NON_NEGATIVE_INTEGER, XSD_POSITIVE_INTEGER,
        XSD_UNSIGNED_INT, XSD_UNSIGNED_LONG, XSD_UNSIGNED_SHORT,
        XSD_UNSIGNED_BYTE, XSD_DECIMAL, XSD_DOUBLE, XSD_FLOAT, XSD_BOOLEAN]

/-- C3 counterexample: the plugin projects the literal `"42"` with an
unrecognized datatype (`xsd:string`) to the string `"42"` — no bare numeric
fallback is ever attempted, contradicting the claimed plugin-side
heuristic that would have produced the JSON number 42. -/
theorem plugin_no_bare_numeric_counterexample :
    Plugin.format_term (.literal "42" XSD_STRING) = .str "42" ∧
    Plugin.format_term (.literal "42" XSD_STRING) ≠ .int 42 := by
  have he : Plugin.format_term (.literal "42" XSD_STRING) = .str "42" := by rfl
  exact ⟨he, by rw [he]; exact fun h => Json.noConfusion h⟩

/-- The plugin `query` projection's recognized datatypes: the three
integer vocab constants, the three float ones and boolean. -/
def pluginRecognizedDatatype (dt : String) : Bool :=
  dt == XSD_INTEGER || dt == XSD_INT || dt == XSD_LONG || dt == XSD_DECIMAL ||
  dt == XSD_DOUBLE || dt == XSD_FLOAT || dt == XSD_BOOLEAN

/-- C3 as amended: the asymmetry runs the other way round.  The plugin
never attempts a bare numeric parse — any literal outside its seven
recognized datatypes is emitted as its string value — while the CLI falls
back to the bare numeric heuristic (integer first, then float, then the
string) whenever the datatype is unrecognized. -/
theorem numeric_fallback_asymmetry_amended (v dt : String)
    (prefixes : List (String × String)) (n m e : Int) :
    (pluginRecognizedDatatype dt = false → Plugin.format_term (.literal v dt) = .str v) ∧
    (isIntegerDatatype dt = false → isFloatDatatype dt = false →
        format_term_typed (.literal v dt) prefixes = bare_numeric_fallback v) ∧
    (rustParseI64 v = some n → bare_numeric_fallback v = .int n) ∧
    (rustParseI64 v = none → rustParseF64 v = some (.finite m e) →
        bare_numeric_fallback v = .num m e) ∧
    format_term_typed (.literal "7" XSD_STRING) [] = .int 7 := by
  refine ⟨?_, ?_, ?_, ?_, by rfl⟩
  · intro h
    simp only [pluginRecognizedDatatype, Bool.or_eq_false_iff] at h
    obtain ⟨⟨⟨⟨⟨⟨h1, h2⟩, h3⟩, h4⟩, h5⟩, h6⟩, h7⟩ := h
    simp [Plugin.format_term, h1, h2, h3, h4, h5, h6, h7]
  · intro h1 h2
    simp [format_term_typed, h1, h2]
  · intro h
    simp [bare_numeric_fallback, h]
  · intro h1 h2
    simp [bare_numeric_fallback, h1, h2]

/-- C4 counterexample: with the prefix `ex -> http://example.org/` declared
in the query text, the plugin still projects the IRI
`http://example.org/Alice` to the raw IRI string and not to `ex:Alice` —
the plugin front end performs no prefix compaction at all. -/
theorem prefix_compaction_plugin_counterexample :
    (Plugin.query
        (constEngine (.solutions [.ok [("s", .namedNode "http://example.org/Alice")]]))
        none "memory"
        "PREFIX ex: <http://example.org/> SELECT ?s WHERE").2 =
      .ok (.arr [.obj [("s", .str "http://example.org/Alice")]]) ∧
    Plugin.format_term (.namedNode "http://example.org/Alice") ≠ .str "ex:Alice" := by
  constructor
  · rfl
  · have he : Plugin.format_term (.namedNode "http://example.org/Alice") =
        .str "http://example.org/Alice" := by rfl
    rw [he]
    intro h
    injection h with h2
    exact absurd h2 (by decide)

/-- C4 as amended: the CLI projector compacts a NamedNode through the first
prefix-table namespace that is a string-prefix of the IRI (in particular
`ex -> http://example.org/` turns `http://example.org/Alice` into
`ex:Alice`) and leaves an unmatched IRI unchanged; the plugin front end has
no prefix table and always emits the IRI string unchanged. -/
theorem prefix_compaction_amended (prefixes : List (String × String))
    (iri pre ns : String) :
    (prefixes.find? (fun p => strStartsWithb iri p.2) = some (pre, ns) →
        format_term_typed (.namedNode iri) prefixes =
          .str (pre ++ ":" ++ strDrop iri ns.length)) ∧
    (prefixes.find? (fun p => strStartsWithb iri p.2) = none →
        format_term_typed (.namedNode iri) prefixes = .str iri) ∧
    format_term_typed (.namedNode "http://example.org/Alice")
        [("ex", "http://example.org/")] = .str "ex:Alice" ∧
    Plugin.format_term (.namedNode iri) = .str iri := by
  refine ⟨?_, ?_, by rfl, by rfl⟩
  · intro h
    simp [format_term_typed, h]
  · intro h
    simp [format_term_typed, h]

/-- C8: an `http://` or `https://` store reference is dispatched to a remote
endpoint — the result is the endpoint itself, whatever the filesystem or
`Store::open` oracles would say, so no local store is consulted or created;
any other reference resolves locally and fails when the path does not
exist; and a remote response with a non-success status (outside 200-299)
is an error carrying the status code and the endpoint. -/
theorem store_reference_dispatch (pathExists : String → Bool)
    (openStore : String → Except String Store) (p : String) (s : Store)
    (send : String → String → Except String HttpResponse)
    (q : String) (prefixes : List (String × String)) (resp : HttpResponse) :
    ((strStartsWithb p "http://" || strStartsWithb p "https://") = true →
        connect_to_store pathExists openStore p = .ok (.httpEndpoint p)) ∧
    ((strStartsWithb p "http://" || strStartsWithb p "https://") = false →
        pathExists p = false →
        connect_to_store pathExists openStore p =
          .error ("Store path does not exist: " ++ p)) ∧
    ((strStartsWithb p "http://" || strStartsWithb p "https://") = false →
        pathExists p = true → openStore p = .ok s →
        connect_to_store pathExists openStore p = .ok (.localStore s)) ∧
    (send p q = .ok resp → ¬(200 ≤ resp.status ∧ resp.status ≤ 299) →
        execute_http_query send p q prefixes =
          .error ("HTTP request failed with status: " ++ toString resp.status ++
            " for endpoint: " ++ p)) ∧
    connect_to_store (fun _ => false) (fun _ => .error "no local store")
        "https://example.org/sparql" = .ok (.httpEndpoint "https://example.org/sparql") ∧
    execute_http_query (fun _ _ => .ok ⟨404, .error "unread"⟩)
        "https://example.org/sparql" "SELECT" [] =
      .error "HTTP request failed with status: 404 for endpoint: https://example.org/sparql" := by
  refine ⟨?_, ?_, ?_, ?_, by rfl, by rfl⟩
  · intro h
    simp [connect_to_store, h]
  · intro h he
    simp [connect_to_store, h, he]
  · intro h he ho
    simp [connect_to_store, h, he, ho]
  · intro hsend hstat
    simp [execute_http_query, hsend, hstat]

/-- Membership in the glob filter `globKeep`: exactly the non-error entries
that are regular files with a `ttl` or `turtle` extension survive. -/
theorem globKeep_mem (fs : FS) (entries : List (Except String Path)) (p : Path) :
    p ∈ globKeep fs entries ↔
      (Except.ok p ∈ entries ∧ fs.isFile p = true ∧
        (pathExtension p = some "ttl" ∨ pathExtension p = some "turtle")) := by
  simp only [globKeep, List.mem_filterMap]
  constructor
  · rintro ⟨ent, hent, hf⟩
    rcases ent with e | q
    · exact absurd hf (by simp)
    · by_cases hq : fs.isFile q = true
      · simp only [hq, if_true] at hf
        rcases hx : pathExtension q with _ | ext
        · rw [hx] at hf
          simp at hf
        · rw [hx] at hf
          by_cases hb : (ext == "ttl" || ext == "turtle") = true
          · simp only [hb, if_true] at hf
            obtain rfl : q = p := by simpa using hf
            refine ⟨hent, hq, ?_⟩
            rw [hx]
            rcases Bool.or_eq_true_iff.mp hb with h | h
            · exact .inl (by rw [beq_iff_eq.mp h])
            · exact .inr (by rw [beq_iff_eq.mp h])
          · simp [hb] at hf
      · simp [hq] at hf
  · rintro ⟨hin, hfile, hext⟩
    refine ⟨.ok p, hin, ?_⟩
    rcases hext with h | h <;> simp [hfile, h]

/-- C9: a pattern without glob metacharacters is a literal path failing when
absent; a glob pattern's expansion keeps exactly the regular files with a
`ttl`/`turtle` extension, sorts them under the path order (so `a.ttl` is
processed before `b.ttl`, as the closing concrete conjunct shows on a
filesystem listing `b.ttl` first), and an expansion keeping nothing is an
error. -/
theorem glob_pattern_expansion (fs : FS) (pat : String)
    (entries : List (Except String Path)) (res : List Path) (p : Path) :
    ((strContainsChar pat '*' || strContainsChar pat '?' ||
        strContainsChar pat '[') = false →
        (fs.pathExists pat = true →
            expand_glob_pattern fs pat = .ok [pathOfString pat]) ∧
        (fs.pathExists pat = false →
            expand_glob_pattern fs pat = .error ("File does not exist: " ++ pat))) ∧
    ((strContainsChar pat '*' || strContainsChar pat '?' ||
        strContainsChar pat '[') = true →
        fs.glob pat = some entries →
        (globKeep fs entries = [] →
            expand_glob_pattern fs pat =
              .error ("No turtle files found matching pattern: " ++ pat)) ∧
        (expand_glob_pattern fs pat = .ok res →
            List.Sorted PathLe res ∧
            (p ∈ res ↔ (Except.ok p ∈ entries ∧ fs.isFile p = true ∧
              (pathExtension p = some "ttl" ∨ pathExtension p = some "turtle"))))) ∧
    expand_glob_pattern sampleGlobFS "*.ttl" = .ok [["a.ttl"], ["b.ttl"]] := by
  refine ⟨?_, ?_, by rfl⟩
  · intro h
    constructor <;> intro he <;> simp [expand_glob_pattern, h, he]
  · intro h hglob
    constructor
    · intro hkeep
      simp [expand_glob_pattern, h, hglob, hkeep]
    · intro hok
      by_cases hkeep : globKeep fs entries = []
      · rw [show expand_glob_pattern fs pat =
            .error ("No turtle files found matching pattern: " ++ pat) by
          simp [expand_glob_pattern, h, hglob, hkeep]] at hok
        exact absurd hok (by simp)
      · have hres : res = List.insertionSort PathLe (globKeep fs entries) := by
          rw [show expand_glob_pattern fs pat =
              .ok (List.insertionSort PathLe (globKeep fs entries)) by
            simp [expand_glob_pattern, h, hglob, hkeep]] at hok
          exact (Except.ok.inj hok).symm
        subst hres
        refine ⟨List.sorted_insertionSort PathLe _, ?_⟩
        rw [(List.perm_insertionSort PathLe (globKeep fs entries)).mem_iff]
        exact globKeep_mem fs entries p

end Typox
